import Mathlib

/-!
Verification of the Markdown report-structuring pipeline of `src/app.py`
(section splitting, prompt construction, line-oriented PDF rendering, and the
spec-level table extractor).

Python strings are modelled as Lean `String`/`List Char`; a handful of Python
string primitives (`str.strip`, `str.startswith`, slicing, `str.replace`,
`str.split`) are given explicit character-list implementations below so that
every definition is executable and every theorem can be checked on concrete
inputs by the kernel.
-/

set_option maxRecDepth 8192

/-- Whitespace characters recognised by Python's `str.strip()` with no
argument: space, tab, newline, carriage return, vertical tab, form feed. -/
def pyIsSpace (c : Char) : Bool :=
  c == ' ' || c == '\t' || c == '\n' || c == '\r' || c == '\x0b' || c == '\x0c'

/-- Drop characters satisfying `p` from both ends of a character list
(the shape of Python's `str.strip` family). -/
def stripEdge (p : Char → Bool) (l : List Char) : List Char :=
  ((l.dropWhile p).reverse.dropWhile p).reverse

/-- Python `s.strip()` on a character list. -/
def pyStripChars (l : List Char) : List Char :=
  stripEdge pyIsSpace l

/-- Python `s.strip()` on a `String`. -/
def pyStrip (s : String) : String :=
  ⟨pyStripChars s.data⟩

/-- Python `s.startswith(p)`: `p` is a leading run of `s`. -/
def listStartsWith : List Char → List Char → Bool
  | _, [] => true
  | [], _ :: _ => false
  | a :: as, b :: bs => a == b && listStartsWith as bs

/-- Python slicing `s[n:]` (by code points). -/
def strDrop (s : String) (n : Nat) : String :=
  ⟨s.data.drop n⟩

/-- Python `s.split(sep)` for a one-character separator: always returns at
least one piece, keeps empty pieces. -/
def splitOnChar (sep : Char) (l : List Char) : List (List Char) :=
  l.foldr
    (fun c acc =>
      match acc with
      | w :: ws => if c == sep then [] :: w :: ws else (c :: w) :: ws
      | [] => [[c]])
    [[]]

/-- Python `s.split('\n')`. -/
def splitLines (l : List Char) : List (List Char) :=
  splitOnChar '\n' l

/-- Python `s.replace('\r\n', '\n')`: left-to-right, non-overlapping. -/
def replaceCRLF : List Char → List Char
  | [] => []
  | '\r' :: '\n' :: rest => '\n' :: replaceCRLF rest
  | c :: rest => c :: replaceCRLF rest

/-!
`markdown_to_sections` (src/app.py lines 19-43).

The Python function normalises `\r\n` to `\n`, strips the document, and scans
it with the `re.MULTILINE` pattern `^(###[ ]+(.*)|##[ ]+(.*))\s*$`.  Because
`^` only matches at line starts, `.` never crosses `\n`, and the trailing
`\s*$` can only swallow whitespace that the per-section `strip` removes
anyway, the regex scan is equivalent to a per-line test: a line is a heading
match exactly when it starts with `'###'` or `'##'` followed by at least one
space; the captured group is the remainder of the line after the greedy run
of spaces.  Each section body is the text strictly between the end of one
heading match and the start of the next (or end of document), i.e. the lines
strictly between the two heading lines joined with `\n`, then
`strip('\n')`-ed and `strip()`-ed (which together amount to `strip()`).
-/

/-- Content captured by the heading pattern `^(###[ ]+(.*)|##[ ]+(.*))\s*$`
on a single line: `some` of the text after the marker and the greedy run of
spaces when the line is a level-2/level-3 heading, `none` otherwise. -/
def headingContent : List Char → Option (List Char)
  | '#' :: '#' :: '#' :: ' ' :: rest => some (rest.dropWhile (· == ' '))
  | '#' :: '#' :: ' ' :: rest => some (rest.dropWhile (· == ' '))
  | _ => none

/-- Document text after `md.replace('\r\n', '\n').strip()` (line 27). -/
def normText (md : String) : List Char :=
  pyStripChars (replaceCRLF md.data)

/-- Lines of the normalised document. -/
def normLines (md : String) : List (List Char) :=
  splitLines (normText md)

/-- Indices of the lines of the normalised document that the heading pattern
matches (the `pattern.finditer(text)` match list, line 31). -/
def headingIdxs (md : String) : List Nat :=
  (List.range (normLines md).length).filter
    (fun i => (headingContent ((normLines md).getD i [])).isSome)

/-- Section name from a heading line: `(m.group(2) or m.group(3) or
"Section")` followed by `.strip()` (lines 40, 42). An empty captured group is
falsy in Python, so it falls through to `"Section"`. -/
def sectionName (l : List Char) : String :=
  match headingContent l with
  | some c => if c.isEmpty then "Section" else ⟨pyStripChars c⟩
  | none => "Section"

/-- Section body for the heading at line `i` with the next heading at line
`j` (or `j` = number of lines): the lines strictly between, joined with
`\n`, then stripped (`text[start:end].strip('\n')` followed by `.strip()`,
lines 41-42). -/
def sectionBody (lines : List (List Char)) (i j : Nat) : String :=
  ⟨pyStripChars (List.intercalate ['\n'] ((lines.drop (i + 1)).take (j - (i + 1))))⟩

/-- Core of `markdown_to_sections` for a non-empty string input
(src/app.py lines 26-43): the enumerated loop over matches, where match `i`
ends at the start of match `i+1`, or at the end of the document for the last
match. -/
def markdown_to_sections_str (md : String) : List (String × String) :=
  if headingIdxs md = [] then
    [("Report", (⟨normText md⟩ : String))]
  else
    ((headingIdxs md).zip ((headingIdxs md).drop 1 ++ [(normLines md).length])).map
      (fun p => (sectionName ((normLines md).getD p.1 []),
                 sectionBody (normLines md) p.1 p.2))

/-- Model of a Python value reaching `markdown_to_sections` (the function is
called on arbitrary session state, so it guards on falsiness and on
`isinstance(md, str)`). -/
inductive PyVal where
  | str (s : String)
  | none
  | int (n : Int)
  | bool (b : Bool)
deriving DecidableEq

/-- Python `str(v)` for the modelled values. -/
def pyStr : PyVal → String
  | .str s => s
  | .none => "None"
  | .int n => toString n
  | .bool b => if b then "True" else "False"

/-- Python truthiness for the modelled values. -/
def pyTruthy : PyVal → Bool
  | .str s => !(s == "")
  | .none => false
  | .int n => !(n == 0)
  | .bool b => b

/-- Python `isinstance(v, str)` for the modelled values. -/
def pyIsStr : PyVal → Bool
  | .str _ => true
  | _ => false

/-- `markdown_to_sections` (src/app.py lines 19-43) over a Python value:
`if not md or not isinstance(md, str): return [("Report", str(md))]`,
otherwise the string algorithm. -/
def markdown_to_sections : PyVal → List (String × String)
  | .str s => if s == "" then [("Report", s)] else markdown_to_sections_str s
  | v => [("Report", pyStr v)]

/-!
Claim-side section splitters, for comparison with `markdown_to_sections`.

`claimSectionsOrig` follows the claim wording of C1 as frozen: the body is
the text strictly between one heading line and the next, "trimmed of
leading/trailing blank lines".  `claimSectionsAmended` is the amended
wording: the body is that text trimmed of leading/trailing whitespace.  Both
walk the heading matches in document order via the index of the following
heading (or the end of the document for the last one), exactly as the claim
describes.
-/

/-- A blank line: empty or whitespace-only. -/
def isBlankL (l : List Char) : Bool :=
  (pyStripChars l).isEmpty

/-- Drop leading and trailing blank lines of a block of lines. -/
def trimBlankEnds (ls : List (List Char)) : List (List Char) :=
  ((ls.dropWhile isBlankL).reverse.dropWhile isBlankL).reverse

/-- Section body as claim C1 states it: the lines strictly between the two
headings, trimmed of leading/trailing blank lines, joined with `\n`. -/
def sectionBodyOrig (lines : List (List Char)) (i j : Nat) : String :=
  ⟨List.intercalate ['\n'] (trimBlankEnds ((lines.drop (i + 1)).take (j - (i + 1))))⟩

/-- Section list as claim C1 states it (bodies trimmed of blank lines only):
for the `k`-th heading line the body runs to the `(k+1)`-th heading line, or
to the end of the document for the last heading. -/
def claimSectionsOrig (md : String) : List (String × String) :=
  (List.range (headingIdxs md).length).map
    (fun k => (sectionName ((normLines md).getD ((headingIdxs md).getD k 0) []),
               sectionBodyOrig (normLines md) ((headingIdxs md).getD k 0)
                 ((headingIdxs md).getD (k + 1) (normLines md).length)))

/-- Section list as the amended claim C1 states it (bodies trimmed of
leading/trailing whitespace). -/
def claimSectionsAmended (md : String) : List (String × String) :=
  (List.range (headingIdxs md).length).map
    (fun k => (sectionName ((normLines md).getD ((headingIdxs md).getD k 0) []),
               sectionBody (normLines md) ((headingIdxs md).getD k 0)
                 ((headingIdxs md).getD (k + 1) (normLines md).length)))

/-!
`build_pdf_bytes_from_markdown` (src/app.py lines 72-104).

The FPDF library calls are abstracted into a trace of rendering operations:
each `pdf.multi_cell`/`pdf.cell`/`pdf.ln` in the line loop (lines 82-103)
appends one operation.  The loop strips each line, emits a 2-unit vertical
space for a blank line, a bold-13 sub-heading for a `"### "` line (text after
the marker), a bold-14 heading for a `"## "` line, an indented `"• "`-glyph
bullet for a `"- "`/`"* "` line, and otherwise emits the line as body text
with `re.sub(r"[*_]{1,2}", "", ...)` applied.  There is no branch for `"# "`
lines, no fenced-code-block state, and no column-based word wrap in the
Python code (line wrapping is performed by the PDF library at page width).
The constructors `largeHeading` and `codeline` are never produced by the
source model; they exist so that the claim-side renderers of C5/C6 can be
expressed in the same vocabulary.
-/

inductive RenderOp where
  | vspace (n : Nat)
  | subheading (s : String)
  | heading (s : String)
  | largeHeading (s : String)
  | bullet (s : String)
  | codeline (s : String)
  | body (s : String)
deriving DecidableEq

/-- Python `re.sub(r"[*_]{1,2}", "", s)` (line 102): repeated replacement of
runs of one or two `*`/`_` characters by nothing removes every `*` and `_`
character of the string (a run of length `k` is consumed two at a time, then
one). -/
def removeEmph (s : String) : String :=
  ⟨s.data.filter (fun c => !(c == '*') && !(c == '_'))⟩

/-- Per-line dispatch of the rendering loop on the stripped line
(src/app.py lines 84-103). -/
def classifyLine (stripped : String) : List RenderOp :=
  if stripped.data.isEmpty then [RenderOp.vspace 2]
  else if listStartsWith stripped.data "### ".data then
    [RenderOp.subheading (strDrop stripped 4)]
  else if listStartsWith stripped.data "## ".data then
    [RenderOp.heading (strDrop stripped 3)]
  else if listStartsWith stripped.data "- ".data || listStartsWith stripped.data "* ".data then
    [RenderOp.bullet ("• " ++ strDrop stripped 2)]
  else
    [RenderOp.body (removeEmph stripped)]

/-- One line of the rendering loop: `stripped = line.strip()` then dispatch. -/
def renderLineOps (line : String) : List RenderOp :=
  classifyLine (pyStrip line)

/-- Lines fed to the rendering loop:
`md.replace('\r\n', '\n').split('\n')` (line 81, no document-level strip). -/
def pdfLines (md : String) : List String :=
  (splitLines (replaceCRLF md.data)).map (fun l => (⟨l⟩ : String))

/-- Body-operation trace of `build_pdf_bytes_from_markdown`
(src/app.py lines 81-103): the line loop in input order. -/
def build_pdf_ops (md : String) : List RenderOp :=
  (pdfLines md).foldr (fun l acc => renderLineOps l ++ acc) []

/-!
Claim-side renderers, for comparison with `build_pdf_ops`/`renderLineOps`.
-/

/-- Whitespace-separated words of a line (for the claimed fixed-column word
wrap): maximal runs of non-whitespace characters. -/
def wordsOf (l : List Char) : List (List Char) :=
  (l.foldr
      (fun c acc =>
        match acc with
        | w :: ws => if pyIsSpace c then [] :: w :: ws else (c :: w) :: ws
        | [] => [[c]])
      [[]]).filter (fun w => !w.isEmpty)

/-- Greedy word wrap at `width` characters: put each word on the current
line when it still fits with a separating space, otherwise start a new
line. -/
def wrapWords (width : Nat) (ws : List (List Char)) : List String :=
  let step := fun (st : List Char × List String) (w : List Char) =>
    match st with
    | (cur, done) =>
      if cur.isEmpty then (w, done)
      else if cur.length + 1 + w.length ≤ width then (cur ++ ' ' :: w, done)
      else (w, done ++ [(⟨cur⟩ : String)])
  match ws.foldl step ([], []) with
  | (cur, done) => if cur.isEmpty then done else done ++ [(⟨cur⟩ : String)]

/-- The word wrap claim C6 describes: fixed width of 110 characters. -/
def wrap110 (s : String) : List String :=
  wrapWords 110 (wordsOf s.data)

/-- Per-line dispatch as claim C6 states it: `"### "` small sub-heading,
`"## "` medium heading, `"# "` large heading, `"- "`/`"* "` bullet, other
non-blank lines word-wrapped to 110 characters as body text, blank lines
vertical spacing. -/
def claimClassify (stripped : String) : List RenderOp :=
  if stripped.data.isEmpty then [RenderOp.vspace 2]
  else if listStartsWith stripped.data "### ".data then
    [RenderOp.subheading (strDrop stripped 4)]
  else if listStartsWith stripped.data "## ".data then
    [RenderOp.heading (strDrop stripped 3)]
  else if listStartsWith stripped.data "# ".data then
    [RenderOp.largeHeading (strDrop stripped 2)]
  else if listStartsWith stripped.data "- ".data || listStartsWith stripped.data "* ".data then
    [RenderOp.bullet ("• " ++ strDrop stripped 2)]
  else
    (wrap110 stripped).map RenderOp.body

/-- One line of the renderer as claim C6 states it. -/
def claimRenderLine (line : String) : List RenderOp :=
  claimClassify (pyStrip line)

/-- One step of the fenced-code-block renderer claim C5 describes, over the
state (inside-fence flag, buffered lines, emitted operations): a line whose
trimmed content starts with three backticks toggles the flag and is never
emitted; inside a fence the line is buffered verbatim and the buffer is
emitted in a fixed-width style when the closing fence is reached; outside a
fence the line is dispatched normally. -/
def claimFenceStep (st : Bool × List String × List RenderOp) (line : String) :
    Bool × List String × List RenderOp :=
  match st with
  | (inFence, buf, acc) =>
    if listStartsWith (pyStrip line).data "```".data then
      if inFence then (false, [], acc ++ buf.map RenderOp.codeline)
      else (true, [], acc)
    else if inFence then (inFence, buf ++ [line], acc)
    else (inFence, buf, acc ++ renderLineOps line)

/-- Renderer trace as claim C5 states it: fold the fence machine over the
lines; if the document ends while still inside a fence, the buffered lines
are flushed anyway. -/
def claimFenceRender (md : String) : List RenderOp :=
  match (pdfLines md).foldl claimFenceStep (false, [], []) with
  | (inFence, buf, acc) => if inFence then acc ++ buf.map RenderOp.codeline else acc

/-!
`run_gemini_audit` (src/app.py lines 108-177).

The function body is one `try` block that configures the client, constructs
the prompt by f-string interpolation, calls the generation API, and returns
`response.text`; `except Exception as e` returns the string
`f"An error occurred: {e}"`.  The f-string (lines 118-170) is reproduced
verbatim below, split at the four interpolation points; every line of the
template is indented with eight spaces, and the template begins with the
newline after `f"""` and ends with the newline and eight spaces before the
closing `"""`.  The `url`, `brand_name`, `audience` and `competitors`
arguments are interpolated exactly as passed (the enclosing app passes the
raw text-area strings); there is no trimming, filtering or substitution.
-/

/-- Template text before `{url}`. -/
def promptPart1 : String :=
  "\n"
  ++ "        Act as an expert Digital Marketing Strategist and SEO Analyst.\n"
  ++ "        Your objective is to perform a comprehensive website and brand audit for the provided business. You will analyze the brand's digital footprint, focusing on its website performance, search engine visibility, and overall online authority. Your analysis must be in-depth, data-driven (using your knowledge base of common metrics and best practices), and conclude with a prioritized list of actionable recommendations.\n"
  ++ "\n"
  ++ "        ## 1. User-Provided Information:\n"
  ++ "\n"
  ++ "        - **Website URL:** "

/-- Template text between `{url}` and `{brand_name}`. -/
def promptPart2 : String :=
  "\n        - **Brand/Company Name:** "

/-- Template text between `{brand_name}` and `{audience}`. -/
def promptPart3 : String :=
  "\n        - **Primary Target Audience:** "

/-- Template text between `{audience}` and `{competitors}`. -/
def promptPart4 : String :=
  "\n        - **Top 3 Competitors:** "

/-- Template text after `{competitors}`. -/
def promptPart5 : String :=
  "\n"
  ++ "\n"
  ++ "        ## 2. Audit Structure & Execution:\n"
  ++ "        Please structure your response as a formal audit report using Markdown for clear formatting. Follow these sections precisely:\n"
  ++ "\n"
  ++ "        ### Executive Summary\n"
  ++ "        Begin with a high-level overview. Summarize the website's current digital marketing health. Concisely list the top 3 most significant strengths and the top 3 most critical areas for immediate improvement.\n"
  ++ "\n"
  ++ "        ### Section A: On-Page & Content Analysis\n"
  ++ "        - **Top Performing Pages:** Based on likely organic traffic and keyword value, identify 3-5 pages that are probably the strongest assets.\n"
  ++ "        - **Content Quality & E-E-A-T:** Assess the website's content for signals of Experience, Expertise, Authoritativeness, and Trustworthiness (E-E-A-T).\n"
  ++ "        - **On-Page SEO Elements:** Analyze Title Tags, Meta Descriptions, Header Tags, Internal Linking, and Calls-to-Action (CTAs).\n"
  ++ "\n"
  ++ "        ### Section B: Keyword & Ranking Analysis\n"
  ++ "        - **Current Keyword Footprint:** Identify 10-15 commercially important, non-branded keywords the site likely ranks for. Present this in a table with columns: Keyword, Estimated Monthly Search Volume, Estimated Ranking Position, and Ranking URL.\n"
  ++ "        - **\"Striking Distance\" Keywords:** Identify 5-7 keywords where the site is likely ranking on page 2 (positions 11-20).\n"
  ++ "        - **Keyword Gap Analysis:** Identify 3-5 valuable keywords that competitors rank for, but the target website does not.\n"
  ++ "\n"
  ++ "        ### Section C: Technical SEO Audit\n"
  ++ "        - **Indexability & Crawlability:** Review robots.txt and XML sitemap presence.\n"
  ++ "        - **Website Speed & Core Web Vitals:** Analyze LCP, CLS, and INP.\n"
  ++ "        - **Mobile-Friendliness:** Assess mobile responsiveness.\n"
  ++ "        - **Site Architecture & URL Structure:** Evaluate URL clarity.\n"
  ++ "        - **Security:** Confirm HTTPS usage.\n"
  ++ "\n"
  ++ "        ### Section D: Structured Data (Schema Markup) Analysis\n"
  ++ "        - **Implementation Check:** Determine if structured data is used.\n"
  ++ "        - **Types of Schema:** Identify schema types used (e.g., Organization, LocalBusiness).\n"
  ++ "        - **Opportunities:** Suggest 2-3 new schema types to implement.\n"
  ++ "\n"
  ++ "        ### Section E: Off-Page & Brand Visibility Audit\n"
  ++ "        - **Backlink Profile Overview:** Provide a conceptual overview of the domain's authority and link quality.\n"
  ++ "        - **Brand Mentions:** Analyze brand visibility and unlinked mentions.\n"
  ++ "        - **Google Business Profile:** Assess its completeness and optimization.\n"
  ++ "        - **Social Media Presence:** List active profiles and comment on activity.\n"
  ++ "\n"
  ++ "        ### Section F: Prioritized Actionable Recommendations\n"
  ++ "        Conclude with a prioritized list of the top 5 most impactful recommendations using the \"What, Why, How\" framework:\n"
  ++ "        - **What:** The specific action to take.\n"
  ++ "        - **Why:** The business or SEO impact.\n"
  ++ "        - **How:** A high-level summary of implementation.\n"
  ++ "\n"
  ++ "        Maintain a professional, consultative tone throughout the report.\n"
  ++ "        "

/-- The prompt f-string of `run_gemini_audit` (src/app.py lines 118-170):
the four field values are interpolated verbatim between the fixed template
segments. -/
def run_gemini_audit_prompt (url brand_name audience competitors : String) : String :=
  promptPart1 ++ url ++ promptPart2 ++ brand_name ++ promptPart3 ++ audience
    ++ promptPart4 ++ competitors ++ promptPart5

/-- Audience value as claim C3 says it is used: trimmed, with the literal
`"Not provided"` substituted when empty after trimming. -/
def audienceNormalizedSpec (a : String) : String :=
  if pyStrip a = "" then "Not provided" else pyStrip a

/-- Competitors block as claim C3 says it is built from a list of entries:
blank/whitespace-only entries dropped, remaining entries trimmed, joined
with newline separators, with the literal `"N/A"` substituted when the
resulting block is empty. -/
def competitorsNormalizedSpec (cs : List String) : String :=
  let es := (cs.map pyStrip).filter (fun e => !(e == ""))
  if es = [] then "N/A" else String.intercalate "\n" es

/-- Outcome of the external generation call: either the response text, or a
raised exception carrying a message (any failure of `genai.configure`, model
construction, `generate_content` or the `response.text` accessor inside the
`try` block is folded into the `error` case). -/
inductive GenOutcome where
  | ok (text : String)
  | error (msg : String)
deriving DecidableEq

/-- `run_gemini_audit` (src/app.py lines 108-177) with the external
generation call modelled as a function from the prompt to an outcome: the
`try` block returns `response.text`; `except Exception as e` returns
`f"An error occurred: {e}"`.  The function always returns a string and never
propagates the failure. -/
def run_gemini_audit (url brand_name audience competitors : String)
    (gen : String → GenOutcome) : String :=
  match gen (run_gemini_audit_prompt url brand_name audience competitors) with
  | .ok t => t
  | .error e => "An error occurred: " ++ e

/-!
TableExtractor.  No table-extraction code exists under src/; the component
is specified in §4.3 of the specification only, so the definitions below are
modelled from the spec, not translated from source.
-/

/-- A Markdown pipe table: header cells and data rows. -/
structure TableData where
  header : List String
  rows : List (List String)
deriving DecidableEq

/-- Modelled from the spec: a table cell is "trimmed of whitespace and of
surrounding backtick/space padding". -/
def cleanCell (l : List Char) : String :=
  ⟨stripEdge (fun c => c == '`' || c == ' ') (pyStripChars l)⟩

/-- Modelled from the spec: "strip a single leading and single trailing `|`
if present". -/
def stripOuterPipes (l : List Char) : List Char :=
  let l1 := match l with
    | '|' :: rest => rest
    | other => other
  match l1.reverse with
  | '|' :: rest => rest.reverse
  | _ => l1

/-- Modelled from the spec: row parsing — strip one outer pipe on each side,
split on `|`, clean each cell. -/
def parseCells (l : List Char) : List String :=
  (splitOnChar '|' (stripOuterPipes (pyStripChars l))).map cleanCell

/-- Modelled from the spec: one separator-line group is three or more
dashes, optionally colon-flanked, after trimming. -/
def isSepCell (l : List Char) : Bool :=
  let q := pyStripChars l
  let q1 := match q with
    | ':' :: rest => rest
    | other => other
  let q2 := match q1.reverse with
    | ':' :: rest => rest.reverse
    | _ => q1
  decide (3 ≤ q2.length) && q2.all (fun c => c == '-')

/-- Modelled from the spec: a separator line matches, after trimming and
optional surrounding pipes, one or more dash groups separated by `|`. -/
def isSepLine (l : List Char) : Bool :=
  (splitOnChar '|' (stripOuterPipes (pyStripChars l))).all isSepCell

/-- A line containing at least one `|` character. -/
def hasPipe (l : List Char) : Bool :=
  l.contains '|'

/-- Modelled from the spec: data rows are consumed "until a blank line or a
line containing no `|` character". -/
def isDataRow (l : List Char) : Bool :=
  !(pyStripChars l).isEmpty && hasPipe l

/-- Modelled from the spec: a heading line of any level, tracked while
scanning top-to-bottom; its text (the name used for the following table) is
the trimmed line with the leading `#` run removed. -/
def anyHeading (l : List Char) : Option (List Char) :=
  match pyStripChars l with
  | '#' :: rest => some (pyStripChars (rest.dropWhile (· == '#')))
  | _ => none

/-- Modelled from the spec: row-width normalisation — the column count is
the maximum of the header and every data row; the header is padded with
synthetic `col_{index}` names (0-based column index) and short rows are
padded with empty-string cells on the right. -/
def mkTable (headerLine : List Char) (dataLines : List (List Char)) : TableData :=
  let header := parseCells headerLine
  let rows := dataLines.map parseCells
  let ncols := rows.foldl (fun m r => max m r.length) header.length
  { header := header ++ (List.range (ncols - header.length)).map
      (fun i => "col_" ++ toString (header.length + i)),
    rows := rows.map (fun r => r ++ List.replicate (ncols - r.length) "") }

/-- Modelled from the spec: name-collision resolution — append `" (2)"`,
`" (3)"`, ... until the name is unused.  The fuel bound
`names.length + 1` suffices because at most `names.length` candidates can
collide. -/
def uniquifyAux (base : String) (names : List String) : Nat → Nat → String
  | 0, k => base ++ " (" ++ toString k ++ ")"
  | fuel + 1, k =>
    let cand := base ++ " (" ++ toString k ++ ")"
    if names.contains cand then uniquifyAux base names fuel (k + 1) else cand

/-- Modelled from the spec: pick the first unused name among
`base`, `base (2)`, `base (3)`, ... -/
def uniquify (base : String) (names : List String) : String :=
  if names.contains base then uniquifyAux base names (names.length + 1) 2 else base

/-- Modelled from the spec: the top-to-bottom scan.  A table begins at a
line with a `|` whose next line is a separator line; its data rows run until
a blank or pipe-free line, and scanning resumes after the consumed block.
The nearest preceding heading names the table, with `"Table {n}"` (1-based
over tables found so far) as fallback and numeric-suffix de-duplication.
`fuel` is consumed once per processed line, so `lines.length + 1` steps are
always enough; it exists only to make the recursion structural. -/
def extractScan : Nat → List (List Char) → Option (List Char) →
    List (String × TableData) → List (String × TableData)
  | 0, _, _, acc => acc
  | _ + 1, [], _, acc => acc
  | fuel + 1, l :: rest, lastH, acc =>
    if hasPipe l && (match rest with | s :: _ => isSepLine s | [] => false) then
      let dataLines := (rest.drop 1).takeWhile isDataRow
      let rest2 := (rest.drop 1).dropWhile isDataRow
      let base := match lastH with
        | some hname => (⟨hname⟩ : String)
        | none => "Table " ++ toString (acc.length + 1)
      let nm := uniquify base (acc.map Prod.fst)
      extractScan fuel rest2 lastH (acc ++ [(nm, mkTable l dataLines)])
    else
      extractScan fuel rest
        (match anyHeading l with
          | some nm => some nm
          | none => lastH) acc

/-- Modelled from the spec: `extractTables(markdown)` — ordered mapping from
table name to table, insertion order = order of first appearance. -/
def extractTables (md : String) : List (String × TableData) :=
  extractScan ((splitLines md.data).length + 1) (splitLines md.data) none []

/-- A long body line (30 six-character words, 209 characters), used to
compare the source renderer with the claimed 110-column word wrap. -/
def longBodyLine : String :=
  "aaaaaa bbbbbb cccccc dddddd eeeeee ffffff gggggg hhhhhh iiiiii jjjjjj kkkkkk llllll mmmmmm nnnnnn oooooo pppppp qqqqqq rrrrrr ssssss tttttt uuuuuu vvvvvv wwwwww xxxxxx yyyyyy zzzzzz aaaaaa bbbbbb cccccc dddddd"

/-!
Helper lemmas.
-/

/-- Unfolding lemma for `listStartsWith` with a cons pattern. -/
theorem listStartsWith_cons_iff (l : List Char) (c : Char) (p : List Char) :
    listStartsWith l (c :: p) = true ↔ ∃ t, l = c :: t ∧ listStartsWith t p = true := by
  cases l with
  | nil => simp [listStartsWith]
  | cons a as =>
    simp only [listStartsWith, Bool.and_eq_true, beq_iff_eq]
    constructor
    · rintro ⟨rfl, h⟩; exact ⟨as, rfl, h⟩
    · rintro ⟨t, ht, h⟩
      injection ht with h1 h2
      exact ⟨h1, h2 ▸ h⟩

/-- A list that starts with a nonempty pattern is nonempty. -/
theorem listStartsWith_isEmpty_false {l : List Char} {c : Char} {p : List Char}
    (h : listStartsWith l (c :: p) = true) : l.isEmpty = false := by
  cases l with
  | nil => simp [listStartsWith] at h
  | cons a as => rfl

/-- A list never starts with a pattern whose first character differs from
its own head. -/
theorem listStartsWith_false_of_head_ne {l t : List Char} {c d : Char}
    (hl : l = c :: t) (h : ¬ c = d) (p : List Char) :
    listStartsWith l (d :: p) = false := by
  subst hl
  simp [listStartsWith, h]

/-- The enumerated-match iteration of `markdown_to_sections_str` (each match
paired with the start of the next match, the last with the end of the
document) equals the claim-side iteration over match indices with the next
index looked up by position. -/
theorem sections_zip_eq {β : Type} (f : Nat → Nat → β) (L : Nat) :
    ∀ idxs : List Nat,
      (idxs.zip (idxs.drop 1 ++ [L])).map (fun p => f p.1 p.2) =
      (List.range idxs.length).map (fun k => f (idxs.getD k 0) (idxs.getD (k + 1) L))
  | [] => rfl
  | [a] => rfl
  | a :: b :: as => by
    have ih := sections_zip_eq f L (b :: as)
    show f a b :: ((b :: as).zip (as ++ [L])).map (fun p => f p.1 p.2) = _
    rw [show ((b :: as).zip (as ++ [L])).map (fun p => f p.1 p.2) =
        ((b :: as).zip ((b :: as).drop 1 ++ [L])).map (fun p => f p.1 p.2) from rfl, ih]
    rw [show (b :: as).length = as.length + 1 from rfl,
        show (a :: b :: as).length = as.length + 1 + 1 from rfl,
        List.range_succ_eq_map (as.length + 1)]
    simp only [List.map_cons, List.map_map]
    rfl

/-!
Claim C1.
-/

/-- C1 (amended): For every Markdown document whose normalised text contains
at least one level-2/level-3 heading line, `markdown_to_sections` returns
the sections in document order; the `k`-th section carries the `k`-th
heading's text and, as body, the text strictly between that heading line and
the next matching heading line (or the end of the document for the last
one), trimmed of leading and trailing whitespace; text before the first
heading is discarded and duplicate headings are kept as distinct entries.
In particular `markdown_to_sections` on `"## A\nbody1\n## B\nbody2"` yields
`[("A", "body1"), ("B", "body2")]`. -/
theorem c1_split_sections_amended :
    (∀ md : String, headingIdxs md ≠ [] →
      markdown_to_sections (.str md) = claimSectionsAmended md) ∧
    markdown_to_sections (.str "## A\nbody1\n## B\nbody2") =
      [("A", "body1"), ("B", "body2")] := by
  constructor
  · intro md h
    by_cases hmd : md = ""
    · subst hmd
      exact absurd (by decide : headingIdxs "" = []) h
    · have hbeq : (md == "") = false := by
        simp [beq_iff_eq, hmd]
      simp only [markdown_to_sections, hbeq, Bool.false_eq_true, if_false,
        markdown_to_sections_str, h, if_neg h, claimSectionsAmended]
      exact sections_zip_eq
        (fun i j => (sectionName ((normLines md).getD i []), sectionBody (normLines md) i j))
        (normLines md).length (headingIdxs md)
  · decide

/-- C1 witness: the general theorem applied to the claim's own example. -/
theorem c1_split_sections_witness :
    markdown_to_sections (.str "## A\nbody1\n## B\nbody2") =
      claimSectionsAmended "## A\nbody1\n## B\nbody2" :=
  c1_split_sections_amended.1 _ (by decide)

/-- C1 counterexample: the claim as stated trims bodies of leading/trailing
blank lines only, so on `"## A\n x \n## B\ny"` it requires the body `" x "`;
the code strips all surrounding whitespace and returns `"x"`. -/
theorem c1_split_sections_counterexample :
    markdown_to_sections (.str "## A\n x \n## B\ny") = [("A", "x"), ("B", "y")] ∧
    claimSectionsOrig "## A\n x \n## B\ny" = [("A", " x "), ("B", "y")] ∧
    markdown_to_sections (.str "## A\n x \n## B\ny") ≠
      claimSectionsOrig "## A\n x \n## B\ny" := by
  exact ⟨by decide, by decide, by decide⟩

/-!
Claim C2.
-/

/-- C2 (amended): For every string in which, after normalising `\r\n` to
`\n` and trimming surrounding whitespace, no line matches the level-2/
level-3 heading pattern, `markdown_to_sections` returns exactly one section
with heading `"Report"` and the normalised trimmed document as body. -/
theorem c2_report_fallback_amended (md : String) (h : headingIdxs md = []) :
    markdown_to_sections (.str md) = [("Report", (⟨normText md⟩ : String))] := by
  by_cases hmd : md = ""
  · subst hmd; decide
  · have hbeq : (md == "") = false := by
      simp [beq_iff_eq, hmd]
    simp [markdown_to_sections, hbeq, markdown_to_sections_str, h]

/-- C2 witness: the theorem applied at the claim's example input. -/
theorem c2_report_fallback_witness :
    markdown_to_sections (.str "no headings here") =
      [("Report", (⟨normText "no headings here"⟩ : String))] ∧
    (⟨normText "no headings here"⟩ : String) = "no headings here" :=
  ⟨c2_report_fallback_amended _ (by decide), by decide⟩

/-- C2 counterexample: in the document `"  ## A\nx"` no line matches the
heading pattern (the pattern anchors at the line start and `"  ## A"` begins
with spaces), yet the code strips the document before scanning, finds the
heading, and returns `[("A", "x")]` instead of the claimed single
`("Report", ...)` section. -/
theorem c2_report_fallback_counterexample :
    ((splitLines ("  ## A\nx").data).all (fun l => (headingContent l).isNone)) = true ∧
    markdown_to_sections (.str "  ## A\nx") = [("A", "x")] ∧
    markdown_to_sections (.str "  ## A\nx") ≠ [("Report", pyStrip "  ## A\nx")] := by
  exact ⟨by decide, by decide, by decide⟩

/-!
Claim C10.
-/

/-- C10: `markdown_to_sections` is total over arbitrary inputs; for `None`,
the empty string, and every non-string value it returns exactly one pair
with heading `"Report"` and the Python string conversion of the input as
body (and, being a total function, it never raises). -/
theorem c10_total_fallback (v : PyVal)
    (h : v = PyVal.none ∨ v = PyVal.str "" ∨ pyIsStr v = false) :
    markdown_to_sections v = [("Report", pyStr v)] := by
  rcases h with h | h | h
  · subst h; rfl
  · subst h; rfl
  · cases v with
    | str s => simp [pyIsStr] at h
    | none => rfl
    | int n => rfl
    | bool b => rfl

/-- C10 witness: a non-string input takes the fallback branch. -/
theorem c10_total_fallback_witness :
    markdown_to_sections (PyVal.int 42) = [("Report", pyStr (PyVal.int 42))] ∧
    pyIsStr (PyVal.int 42) = false :=
  ⟨c10_total_fallback _ (Or.inr (Or.inr rfl)), rfl⟩

/-!
Claim C9.
-/

/-- C9: for every input and every behaviour of the external generation call
(modelled as returning text or raising), `run_gemini_audit` returns a
string: the response text on success, and the single human-readable message
`"An error occurred: ..."` on any failure — it never propagates the
failure to its caller. -/
theorem c9_error_boundary (url brand_name audience competitors : String)
    (gen : String → GenOutcome) :
    (∃ t, gen (run_gemini_audit_prompt url brand_name audience competitors) = GenOutcome.ok t ∧
      run_gemini_audit url brand_name audience competitors gen = t) ∨
    (∃ e, gen (run_gemini_audit_prompt url brand_name audience competitors) = GenOutcome.error e ∧
      run_gemini_audit url brand_name audience competitors gen = "An error occurred: " ++ e) := by
  cases hg : gen (run_gemini_audit_prompt url brand_name audience competitors) with
  | ok t => exact Or.inl ⟨t, rfl, by simp [run_gemini_audit, hg]⟩
  | error e => exact Or.inr ⟨e, rfl, by simp [run_gemini_audit, hg]⟩

/-!
Claim C8.
-/

/-- C8: table extraction names each pipe table after the nearest preceding
heading of any level, falling back to `"Table {n}"` with a 1-based counter
when no heading has been seen; on the claim's example document it returns
exactly one table named `"Keywords"` with header `["Keyword", "Volume"]` and
the single row `["seo", "1000"]`. -/
theorem c8_table_extraction_naming :
    extractTables "## Keywords\n| Keyword | Volume |\n| --- | --- |\n| seo | 1000 |" =
      [("Keywords", ⟨["Keyword", "Volume"], [["seo", "1000"]]⟩)] ∧
    extractTables "| A |\n| --- |\n| 1 |\n\n| B |\n| --- |\n| 2 |" =
      [("Table 1", ⟨["A"], [["1"]]⟩), ("Table 2", ⟨["B"], [["2"]]⟩)] ∧
    extractTables "## A\n### B\n| x | y |\n| --- | --- |\n| 1 | 2 |" =
      [("B", ⟨["x", "y"], [["1", "2"]]⟩)] := by
  exact ⟨by decide, by decide, by decide⟩

/-!
Claim C5.
-/

/-- C5 (amended): the renderer maintains no fenced-code-block mode at all —
every line whose trimmed content starts with three backticks is emitted as
an ordinary body-text line (with the emphasis-marker removal applied), the
same as any other unrecognised line, and lines between two fence lines are
classified by the normal per-line rules. -/
theorem c5_fence_amended (line : String)
    (h : listStartsWith (pyStrip line).data "```".data = true) :
    renderLineOps line = [RenderOp.body (removeEmph (pyStrip line))] := by
  obtain ⟨t1, h1, h⟩ := (listStartsWith_cons_iff _ _ _).mp h
  have e0 : (pyStrip line).data.isEmpty = false := by rw [h1]; rfl
  have e1 : listStartsWith (pyStrip line).data "### ".data = false :=
    listStartsWith_false_of_head_ne h1 (by decide) _
  have e2 : listStartsWith (pyStrip line).data "## ".data = false :=
    listStartsWith_false_of_head_ne h1 (by decide) _
  have e3 : listStartsWith (pyStrip line).data "- ".data = false :=
    listStartsWith_false_of_head_ne h1 (by decide) _
  have e4 : listStartsWith (pyStrip line).data "* ".data = false :=
    listStartsWith_false_of_head_ne h1 (by decide) _
  simp [renderLineOps, classifyLine, e0, e1, e2, e3, e4]

/-- C5 witness: a concrete fence line is rendered as body text. -/
theorem c5_fence_witness :
    renderLineOps "```python" = [RenderOp.body (removeEmph (pyStrip "```python"))] ∧
    removeEmph (pyStrip "```python") = "```python" :=
  ⟨c5_fence_amended _ (by decide), by decide⟩

/-- C5 counterexample: on `"```\ncode\n```"` the claimed fence machine emits
only the buffered code line in fixed-width style, while the code emits all
three lines — the fence lines included — as body text. -/
theorem c5_fence_counterexample :
    build_pdf_ops "```\ncode\n```" =
      [RenderOp.body "```", RenderOp.body "code", RenderOp.body "```"] ∧
    claimFenceRender "```\ncode\n```" = [RenderOp.codeline "code"] ∧
    build_pdf_ops "```\ncode\n```" ≠ claimFenceRender "```\ncode\n```" := by
  exact ⟨by decide, by decide, by decide⟩

/-!
Claim C6.
-/

/-- C6 (amended): outside of any special mode the renderer classifies each
line by its stripped form, in priority order: blank lines advance vertical
spacing without emitting a glyph; `"### "` lines become small sub-headings
and `"## "` lines medium headings, both with the marker stripped; `"- "` and
`"* "` lines become bullets with the marker replaced by a bullet glyph; and
every other non-blank line — `"# "` lines included — is emitted as one
body-text operation with the emphasis markers removed (there is no `"# "`
large-heading branch and no fixed 110-character word wrap; line wrapping is
delegated to the output library). -/
theorem c6_classify_amended (line : String) :
    ((pyStrip line).data.isEmpty = true → renderLineOps line = [RenderOp.vspace 2]) ∧
    (listStartsWith (pyStrip line).data "### ".data = true →
      renderLineOps line = [RenderOp.subheading (strDrop (pyStrip line) 4)]) ∧
    (listStartsWith (pyStrip line).data "## ".data = true →
      renderLineOps line = [RenderOp.heading (strDrop (pyStrip line) 3)]) ∧
    ((listStartsWith (pyStrip line).data "- ".data = true ∨
      listStartsWith (pyStrip line).data "* ".data = true) →
      renderLineOps line = [RenderOp.bullet ("• " ++ strDrop (pyStrip line) 2)]) ∧
    ((pyStrip line).data.isEmpty = false →
      listStartsWith (pyStrip line).data "### ".data = false →
      listStartsWith (pyStrip line).data "## ".data = false →
      listStartsWith (pyStrip line).data "- ".data = false →
      listStartsWith (pyStrip line).data "* ".data = false →
      renderLineOps line = [RenderOp.body (removeEmph (pyStrip line))]) := by
  refine ⟨?_, ?_, ?_, ?_, ?_⟩
  · intro h
    simp [renderLineOps, classifyLine, h]
  · intro h
    have e0 := listStartsWith_isEmpty_false h
    simp [renderLineOps, classifyLine, e0, h]
  · intro h
    have e0 := listStartsWith_isEmpty_false h
    obtain ⟨t1, h1, h'⟩ := (listStartsWith_cons_iff _ _ _).mp h
    obtain ⟨t2, h2, h'⟩ := (listStartsWith_cons_iff _ _ _).mp h'
    obtain ⟨t3, h3, _⟩ := (listStartsWith_cons_iff _ _ _).mp h'
    have e1 : listStartsWith (pyStrip line).data "### ".data = false := by
      rw [h1, h2, h3]
      simp [listStartsWith]
    simp [renderLineOps, classifyLine, e0, e1, h]
  · intro h
    rcases h with h | h
    · have e0 := listStartsWith_isEmpty_false h
      obtain ⟨t1, h1, _⟩ := (listStartsWith_cons_iff _ _ _).mp h
      have e1 : listStartsWith (pyStrip line).data "### ".data = false :=
        listStartsWith_false_of_head_ne h1 (by decide) _
      have e2 : listStartsWith (pyStrip line).data "## ".data = false :=
        listStartsWith_false_of_head_ne h1 (by decide) _
      simp [renderLineOps, classifyLine, e0, e1, e2, h]
    · have e0 := listStartsWith_isEmpty_false h
      obtain ⟨t1, h1, _⟩ := (listStartsWith_cons_iff _ _ _).mp h
      have e1 : listStartsWith (pyStrip line).data "### ".data = false :=
        listStartsWith_false_of_head_ne h1 (by decide) _
      have e2 : listStartsWith (pyStrip line).data "## ".data = false :=
        listStartsWith_false_of_head_ne h1 (by decide) _
      simp [renderLineOps, classifyLine, e0, e1, e2, h]
  · intro e0 e1 e2 e3 e4
    simp [renderLineOps, classifyLine, e0, e1, e2, e3, e4]

/-- C6 witness: the theorem applied to a concrete heading line and a
concrete bullet line. -/
theorem c6_classify_witness :
    renderLineOps "### Sub" = [RenderOp.subheading (strDrop (pyStrip "### Sub") 4)] ∧
    renderLineOps "- item" = [RenderOp.bullet ("• " ++ strDrop (pyStrip "- item") 2)] ∧
    strDrop (pyStrip "### Sub") 4 = "Sub" :=
  ⟨(c6_classify_amended "### Sub").2.1 (by decide),
   (c6_classify_amended "- item").2.2.2.1 (Or.inl (by decide)),
   by decide⟩

/-- C6 counterexample: the claim requires a `"# "` large-heading branch and
a 110-character word wrap; the code has neither — a `"# "` line is emitted
as body text, and a 209-character paragraph line is emitted as a single
body operation where the claimed classifier wraps it into two. -/
theorem c6_classify_counterexample :
    renderLineOps "# T" = [RenderOp.body "# T"] ∧
    claimRenderLine "# T" = [RenderOp.largeHeading "T"] ∧
    renderLineOps "# T" ≠ claimRenderLine "# T" ∧
    renderLineOps longBodyLine = [RenderOp.body longBodyLine] ∧
    (claimRenderLine longBodyLine).length = 2 ∧
    renderLineOps longBodyLine ≠ claimRenderLine longBodyLine := by
  exact ⟨by decide, by decide, by decide, by decide, by decide, by decide⟩

/-!
Claim C3.
-/

/-- C3 (amended): the prompt builder interpolates the audience and
competitors values verbatim — both occur as exact substrings of the output,
and with the other fields fixed, distinct audience (respectively
competitors) values always produce distinct prompts; so no trimming,
dropping of blank entries, joining, or `"Not provided"`/`"N/A"`
substitution takes place. -/
theorem c3_prompt_verbatim (url brand_name a a2 c c2 : String) :
    (run_gemini_audit_prompt url brand_name a c =
      run_gemini_audit_prompt url brand_name a2 c → a = a2) ∧
    (run_gemini_audit_prompt url brand_name a c =
      run_gemini_audit_prompt url brand_name a c2 → c = c2) ∧
    (∃ s t, run_gemini_audit_prompt url brand_name a c = s ++ a ++ t) ∧
    (∃ s t, run_gemini_audit_prompt url brand_name a c = s ++ c ++ t) := by
  refine ⟨?_, ?_, ?_, ?_⟩
  · intro h
    have h' := congrArg String.data h
    simp only [run_gemini_audit_prompt, String.data_append, List.append_assoc] at h'
    have h' := List.append_cancel_left h'
    have h' := List.append_cancel_left h'
    have h' := List.append_cancel_left h'
    have h' := List.append_cancel_left h'
    have h' := List.append_cancel_left h'
    exact String.ext (List.append_cancel_right h')
  · intro h
    have h' := congrArg String.data h
    simp only [run_gemini_audit_prompt, String.data_append, List.append_assoc] at h'
    have h' := List.append_cancel_left h'
    have h' := List.append_cancel_left h'
    have h' := List.append_cancel_left h'
    have h' := List.append_cancel_left h'
    have h' := List.append_cancel_left h'
    have h' := List.append_cancel_left h'
    have h' := List.append_cancel_left h'
    exact String.ext (List.append_cancel_right h')
  · refine ⟨promptPart1 ++ url ++ promptPart2 ++ brand_name ++ promptPart3,
      promptPart4 ++ c ++ promptPart5, ?_⟩
    apply String.ext
    simp [run_gemini_audit_prompt, String.data_append, List.append_assoc]
  · refine ⟨promptPart1 ++ url ++ promptPart2 ++ brand_name ++ promptPart3 ++ a ++ promptPart4,
      promptPart5, ?_⟩
    apply String.ext
    simp [run_gemini_audit_prompt, String.data_append, List.append_assoc]

/-- C3 witness: the theorem applied at concrete field values. -/
theorem c3_prompt_verbatim_witness :
    ("x" : String) = "x" ∧
    ∃ s t, run_gemini_audit_prompt "u" "b" "aud" "comp" = s ++ "aud" ++ t :=
  ⟨(c3_prompt_verbatim "u" "b" "x" "x" "c" "c").1 rfl,
   (c3_prompt_verbatim "u" "b" "aud" "aud" "comp" "comp").2.2.1⟩

/-- C3 counterexample: the claim requires the whitespace-only audience
`"  "` to be replaced by `"Not provided"` and a blank competitors value to
be replaced by `"N/A"`, i.e. the prompt for `("  ", "  ")` would have to
equal the prompt for `("Not provided", "N/A")`; the code interpolates the
raw values, so the two prompts differ. -/
theorem c3_prompt_counterexample :
    audienceNormalizedSpec "  " = "Not provided" ∧
    competitorsNormalizedSpec ["  ", "a", "", "b"] = "a\nb" ∧
    competitorsNormalizedSpec ["  "] = "N/A" ∧
    run_gemini_audit_prompt "u" "b" "  " "  " ≠
      run_gemini_audit_prompt "u" "b" "Not provided" "N/A" := by
  exact ⟨by decide, by decide, by decide, by decide⟩
